import Mathlib

/-!
Verification of the jh-attendance application core against its
natural-language specification.

The definitions below are a shallow embedding of the Python source:

* `digits_only`, `validate_cedula` embed the utility validators of
  `src/app.py` (lines 49-55).
* `computeStreaks` embeds the per-youth attendance-streak block of the
  `youth_list` handler (`src/app.py` lines 377-412): the database queries are
  represented by explicit list filtering, and the nested loop by structural
  recursion.
* `enforce_session_policies` embeds the `before_request` guard of
  `src/app.py` lines 197-229, with `datetime.fromisoformat` and
  `datetime.isoformat` abstracted as explicit function parameters and Python
  truthiness of optional strings made explicit (`pyTruthy`).
* `login` embeds the credential check and session-token rotation of the
  `/login` handler (`src/app.py` lines 294-315), with the password-hash
  check abstracted as a function parameter.
* `attendance_register_active` embeds the duplicate-rejecting attendance
  insert of `src/app.py` lines 896-904 together with the unique constraint
  `uq_service_youth` of `src/models.py`.
* `role_required` embeds the decorator of `src/helpers.py`, and
  `youth_delete` the ROOT-only delete handler of `src/app.py` lines 517-530.

Timestamps are modelled as integers counting seconds: the Python comparison
`(now - last_dt) > timedelta(minutes=IDLE_MINUTES)` becomes
`now - t > idleMinutes * 60`.
-/

namespace JHAttendance

/-! ## Utility validators (src/app.py lines 49-55) -/

/-- Embeds `digits_only`: strip every non-digit character
(`re.sub(r"\D", "", value or "")`). -/
def digits_only (value : String) : String :=
  String.mk (value.data.filter Char.isDigit)

/-- Python `str.isdigit`: true iff the string is nonempty and every
character is a digit. -/
def str_isdigit (s : String) : Bool :=
  !s.data.isEmpty && s.data.all Char.isDigit

/-- Embeds `validate_cedula`: `d = digits_only(value); return d.isdigit() and
len(d) in (8, 9)`. -/
def validate_cedula (value : String) : Bool :=
  str_isdigit (digits_only value) &&
    ((digits_only value).length == 8 || (digits_only value).length == 9)

/-- Cedula acceptance test of the `youth_new` route (`src/app.py` lines
433-445): the form value is first normalised with `digits_only`, then
checked with `validate_cedula`. -/
def youth_new_cedula_check (raw : String) : Bool :=
  validate_cedula (digits_only raw)

/-- Cedula acceptance test of the `attendance_register_active` route
(`src/app.py` lines 886-889): identical normalisation and check. -/
def attendance_register_cedula_check (raw : String) : Bool :=
  validate_cedula (digits_only raw)

/-! ## StreakCalculator (src/app.py lines 377-412, inside `youth_list`) -/

/-- Embeds `attended.get(c, set())`: the set of service ids the youth with
cedula `c` attended, extracted from the fetched pair list. -/
def attendedSet (pairs : List (String × Nat)) (c : String) : List Nat :=
  (pairs.filter (fun p => p.1 == c)).map (fun p => p.2)

/-- Embeds the attendance-pair query of `src/app.py` lines 390-395: all
attendance pairs restricted to the listed cedulas and recent service ids. -/
def fetchPairs (attendancePairs : List (String × Nat)) (cedulas : List String)
    (serviceIds : List Nat) : List (String × Nat) :=
  attendancePairs.filter (fun p => cedulas.contains p.1 && serviceIds.contains p.2)

/-- Embeds the inner loop of `src/app.py` lines 402-408: walk the service ids
newest to oldest, counting while the youth attended, stopping at the first
miss. -/
def streakLoop (serviceIds : List Nat) (aset : List Nat) : Nat :=
  match serviceIds with
  | [] => 0
  | sid :: rest => if aset.contains sid then streakLoop rest aset + 1 else 0

/-- Embeds the streak block of `youth_list` (`src/app.py` lines 387-412):
when both the recent-service list and the youth list are nonempty, fetch the
relevant attendance pairs once and run the counting loop per youth; otherwise
every listed youth gets streak 0.  The result is the `streaks` mapping,
represented as an association list in youth-list order. -/
def computeStreaks (serviceIds : List Nat) (attendancePairs : List (String × Nat))
    (cedulas : List String) : List (String × Nat) :=
  if serviceIds ≠ [] ∧ cedulas ≠ [] then
    let pairs := fetchPairs attendancePairs cedulas serviceIds
    cedulas.map (fun c => (c, streakLoop serviceIds (attendedSet pairs c)))
  else
    cedulas.map (fun c => (c, 0))

/-! ## SessionPolicyGuard (src/app.py lines 197-229) -/

/-- Outcome of the `enforce_session_policies` before-request guard.  The
three logout outcomes correspond to `logout_user(); session.clear()`
followed by a redirect to the login view; `allowed` corresponds to falling
through to the handler with `session["last_activity"]` rewritten. -/
inductive GuardOutcome where
  | idleLogout
  | malformedLogout
  | supersededLogout
  | allowed (newLastActivity : String)
deriving Repr, DecidableEq

/-- User-facing flash notices emitted by the embedded handlers. -/
inductive Notice where
  | idleLogoutMsg
  | supersededMsg
  | invalidCredentialsMsg
  | noPermissionMsg
deriving Repr, DecidableEq

/-- Python truthiness of an optional string: `None` and the empty string are
falsy (`if last:`, `not current_token`). -/
def pyTruthy : Option String → Bool
  | none => false
  | some s => s != ""

/-- Embeds the inactivity block of `src/app.py` lines 204-217: skipped when
the stored value is absent or falsy (empty); a parse failure takes the bare
`except` branch (`malformedLogout`); a parsed timestamp forces logout exactly
when strictly more than `idleMinutes` minutes old.  Returns `none` when
control falls through to the token check. -/
def idleCheck (parseIso : String → Option Int) (idleMinutes now : Int)
    (lastActivity : Option String) : Option GuardOutcome :=
  match lastActivity with
  | none => none
  | some s =>
    if s = "" then none
    else
      match parseIso s with
      | none => some GuardOutcome.malformedLogout
      | some t =>
        if now - t > idleMinutes * 60 then some GuardOutcome.idleLogout else none

/-- Embeds the single-session block of `src/app.py` lines 220-229:
`if not current_token or not user_token or user_token != current_token`
forces logout; otherwise the request proceeds and `last_activity` is
rewritten to `now.isoformat()`. -/
def tokenCheck (isoFmt : Int → String) (now : Int)
    (currentToken userToken : Option String) : GuardOutcome :=
  if !pyTruthy currentToken || !pyTruthy userToken || userToken != currentToken then
    GuardOutcome.supersededLogout
  else
    GuardOutcome.allowed (isoFmt now)

/-- Embeds `enforce_session_policies` (`src/app.py` lines 197-229) for an
authenticated principal: the inactivity block runs first; when it does not
return, the single-session token block decides. -/
def enforce_session_policies (parseIso : String → Option Int) (isoFmt : Int → String)
    (idleMinutes now : Int) (lastActivity currentToken userToken : Option String) :
    GuardOutcome :=
  match idleCheck parseIso idleMinutes now lastActivity with
  | some out => out
  | none => tokenCheck isoFmt now currentToken userToken

/-- The flash notice each guard outcome emits: the idle branch flashes the
inactivity message, the superseded branch flashes the opened-elsewhere
message, and the bare `except` branch and the allowed path flash nothing. -/
def guardNotice : GuardOutcome → Option Notice
  | GuardOutcome.idleLogout => some Notice.idleLogoutMsg
  | GuardOutcome.malformedLogout => none
  | GuardOutcome.supersededLogout => some Notice.supersededMsg
  | GuardOutcome.allowed _ => none

/-- Whether the guard outcome invalidates the local session
(`logout_user(); session.clear()`). -/
def sessionInvalidated : GuardOutcome → Bool
  | GuardOutcome.allowed _ => false
  | _ => true

/-- Whether the guard outcome redirects the request to the login view. -/
def redirectsToLogin : GuardOutcome → Bool
  | GuardOutcome.allowed _ => false
  | _ => true

/-! ## Login (src/app.py lines 294-315) -/

/-- One row of the `users` table (`src/models.py` lines 7-20).  The password
hash is opaque; `check_password` is abstracted below as a function parameter
`checkPw : hash → raw → Bool`. -/
structure UserRec where
  id : Nat
  username : String
  password_hash : String
  role : String
  is_active : Bool
  session_token : Option String
deriving Repr, DecidableEq

/-- Outcome of the `/login` POST handler: either a session is established
carrying the freshly issued token (redirect to the dashboard), or the
invalid-credentials notice is flashed and nothing changes. -/
inductive LoginOutcome where
  | success (sessionToken : String)
  | invalidCredentials
deriving Repr, DecidableEq

/-- Embeds the `/login` POST branch (`src/app.py` lines 296-313):
`User.query.filter_by(username=username, is_active=True).first()` followed by
`check_password`; on success a fresh token is stored on the user row and in
the session.  `newToken` stands for the value of `secrets.token_urlsafe(32)`.
Returns the updated user table and the outcome. -/
def login (checkPw : String → String → Bool) (users : List UserRec)
    (username password newToken : String) : List UserRec × LoginOutcome :=
  match (users.filter (fun u => u.username == username && u.is_active)).head? with
  | some u =>
    if checkPw u.password_hash password then
      (users.map (fun v =>
        if v.id == u.id then { v with session_token := some newToken } else v),
       LoginOutcome.success newToken)
    else
      (users, LoginOutcome.invalidCredentials)
  | none => (users, LoginOutcome.invalidCredentials)

/-! ## Attendance registration (src/app.py lines 896-904, src/models.py lines 48-58) -/

/-- One row of the `attendance` table, restricted to the columns the claims
mention; the table carries the unique constraint `uq_service_youth` on
`(service_id, youth_cedula)`. -/
structure AttendanceMark where
  service_id : Nat
  youth_cedula : String
  registered_by : Nat
deriving Repr, DecidableEq

/-- Outcome of the attendance insert: committed, or rolled back with the
already-registered notice. -/
inductive RegisterOutcome where
  | registered
  | alreadyRegistered
deriving Repr, DecidableEq

/-- Whether a stored mark collides with the `(service_id, youth_cedula)`
pair being inserted (the uniqueness key of `uq_service_youth`). -/
def samePair (a : AttendanceMark) (sid : Nat) (ced : String) : Bool :=
  a.service_id == sid && a.youth_cedula == ced

/-- Embeds the insert of `attendance_register_active` (`src/app.py` lines
896-904): adding a row whose `(service_id, youth_cedula)` pair already exists
violates `uq_service_youth`, the transaction is rolled back (store unchanged)
and the already-registered notice is flashed; otherwise the row is committed. -/
def attendance_register_active (marks : List AttendanceMark) (sid : Nat)
    (ced : String) (uid : Nat) : List AttendanceMark × RegisterOutcome :=
  if marks.any (fun a => samePair a sid ced) then
    (marks, RegisterOutcome.alreadyRegistered)
  else
    (marks ++ [⟨sid, ced, uid⟩], RegisterOutcome.registered)

/-- The per-pair uniqueness invariant of the attendance table: no two stored
marks agree on both `service_id` and `youth_cedula`. -/
def PairUnique (marks : List AttendanceMark) : Prop :=
  marks.Pairwise (fun a b => a.service_id ≠ b.service_id ∨ a.youth_cedula ≠ b.youth_cedula)

/-! ## Role gate and youth deletion (src/helpers.py, src/app.py lines 517-530) -/

/-- Result of a role-gated route: either the wrapped handler ran and produced
its own response, or the wrapper flashed the no-permission notice and
redirected to the dashboard without calling the handler. -/
inductive RouteResult (ρ : Type) where
  | ran (r : ρ)
  | permissionRedirect
deriving Repr, DecidableEq

/-- Embeds the `role_required` decorator (`src/helpers.py` lines 5-14): when
`current_user.role not in roles`, flash the no-permission notice and redirect
to the dashboard without invoking the wrapped handler; otherwise run it. -/
def role_required {σ ρ : Type} (roles : List String) (fn : σ → σ × ρ)
    (role : String) (st : σ) : σ × RouteResult ρ :=
  if roles.contains role then
    ((fn st).1, RouteResult.ran (fn st).2)
  else
    (st, RouteResult.permissionRedirect)

/-- One row of the `youth` table, restricted to its key. -/
structure YouthRec where
  cedula : String
  full_name : String
deriving Repr, DecidableEq

/-- The persistent state the delete route touches: youth rows and attendance
rows. -/
structure Store where
  youths : List YouthRec
  attendance : List AttendanceMark
deriving Repr, DecidableEq

/-- Response of the youth-delete handler body. -/
inductive DeleteResult where
  | deleted
  | notFound
deriving Repr, DecidableEq

/-- Embeds the body of `youth_delete` (`src/app.py` lines 520-530):
`get_or_404` on the cedula, then delete the youth's attendance rows and the
youth row. -/
def youth_delete_handler (ced : String) (st : Store) : Store × DeleteResult :=
  if st.youths.any (fun y => y.cedula == ced) then
    (⟨st.youths.filter (fun y => y.cedula != ced),
      st.attendance.filter (fun a => a.youth_cedula != ced)⟩,
     DeleteResult.deleted)
  else
    (st, DeleteResult.notFound)

/-- The `/youth/<cedula>/delete` route as deployed: the handler body wrapped
in `role_required("ROOT")` (`src/app.py` lines 517-519). -/
def youth_delete (role : String) (ced : String) (st : Store) :
    Store × RouteResult DeleteResult :=
  role_required ["ROOT"] (youth_delete_handler ced) role st

/-! ## Concrete stubs used by closed witness statements -/

/-- A concrete stand-in for `datetime.fromisoformat`, defined on a single
test string. -/
def parseIsoStub : String → Option Int :=
  fun s => if s = "TS" then some 0 else none

/-- A concrete stand-in for `check_password_hash`, comparing hash and raw
value for equality. -/
def checkPwStub : String → String → Bool := fun h r => h == r

/-- A concrete stand-in for `datetime.isoformat`. -/
def isoFmtStub : Int → String :=
  fun t => String.mk (Nat.toDigits 10 t.toNat)

/-! ## Helper lemmas -/

/-- Bridge between boolean `List.contains` and propositional membership. -/
theorem contains_eq_true_iff {α : Type} [BEq α] [LawfulBEq α] (l : List α) (a : α) :
    l.contains a = true ↔ a ∈ l := by
  simp only [List.elem_eq_mem, decide_eq_true_eq]

/-- Membership in the per-youth attended set built from the fetched pairs. -/
theorem mem_attendedSet_fetch (ap : List (String × Nat)) (ceds : List String)
    (sids : List Nat) (c : String) (sid : Nat) :
    sid ∈ attendedSet (fetchPairs ap ceds sids) c ↔
      ((c, sid) ∈ ap ∧ c ∈ ceds ∧ sid ∈ sids) := by
  simp only [attendedSet, fetchPairs, List.mem_map, List.mem_filter,
    Bool.and_eq_true, beq_iff_eq, List.elem_eq_mem, decide_eq_true_eq]
  constructor
  · rintro ⟨⟨x, y⟩, ⟨⟨h1, h2, h3⟩, h4⟩, h5⟩
    simp only at h4 h5
    subst h4; subst h5
    exact ⟨h1, h2, h3⟩
  · rintro ⟨h1, h2, h3⟩
    exact ⟨(c, sid), ⟨⟨h1, h2, h3⟩, rfl⟩, rfl⟩

/-- For a listed youth and a recent service id, testing the fetched attended
set agrees with testing the full attendance relation. -/
theorem attendedSet_contains (ap : List (String × Nat)) (ceds : List String)
    (sids : List Nat) (c : String) (sid : Nat) (hc : c ∈ ceds) (hsid : sid ∈ sids) :
    (attendedSet (fetchPairs ap ceds sids) c).contains sid = ap.contains (c, sid) := by
  rw [Bool.eq_iff_iff, contains_eq_true_iff, contains_eq_true_iff,
    mem_attendedSet_fetch]
  exact ⟨fun h => h.1, fun h => ⟨h, hc, hsid⟩⟩

/-- `takeWhile` only looks at its predicate on the list's elements. -/
theorem takeWhile_congr_on {α : Type} (p q : α → Bool) :
    ∀ (l : List α), (∀ a ∈ l, p a = q a) → l.takeWhile p = l.takeWhile q := by
  intro l
  induction l with
  | nil => intro _; rfl
  | cons a l ih =>
    intro h
    rw [List.takeWhile_cons, List.takeWhile_cons, h a (List.mem_cons_self a l)]
    cases hq : q a
    · rfl
    · rw [ih (fun b hb => h b (List.mem_cons_of_mem a hb))]

/-- The counting loop of `youth_list` computes the length of the longest
attended prefix. -/
theorem streakLoop_eq_takeWhile (sids aset : List Nat) :
    streakLoop sids aset = (sids.takeWhile (fun sid => aset.contains sid)).length := by
  induction sids with
  | nil => rfl
  | cons sid rest ih =>
    rw [streakLoop, List.takeWhile_cons]
    cases h : aset.contains sid
    · simp [h]
    · simp [h, ih]

/-- Looking up a key produced by tabulating a function over a key list. -/
theorem lookup_map_self (f : String → Nat) :
    ∀ (l : List String) (c : String), c ∈ l →
      (l.map (fun x => (x, f x))).lookup c = some (f c) := by
  intro l
  induction l with
  | nil => intro c hc; cases hc
  | cons x l ih =>
    intro c hc
    simp only [List.map, List.lookup]
    by_cases h : c = x
    · subst h; simp
    · rw [beq_eq_false_iff_ne.mpr h]
      exact ih c ((List.mem_cons.mp hc).resolve_left h)

/-- Main streak lemma: for every listed youth, the computed streak is the
length of the longest prefix of the recent-service list every element of
which the youth attended. -/
theorem computeStreaks_lookup (sids : List Nat) (ap : List (String × Nat))
    (cedulas : List String) (c : String) (hc : c ∈ cedulas) :
    (computeStreaks sids ap cedulas).lookup c =
      some (sids.takeWhile (fun sid => ap.contains (c, sid))).length := by
  have hced : cedulas ≠ [] := List.ne_nil_of_mem hc
  by_cases hs : sids = []
  · subst hs
    unfold computeStreaks
    rw [if_neg (fun h => h.1 rfl)]
    rw [lookup_map_self (fun _ => 0) cedulas c hc]
    rfl
  · unfold computeStreaks
    rw [if_pos ⟨hs, hced⟩]
    show (cedulas.map (fun x =>
        (x, streakLoop sids (attendedSet (fetchPairs ap cedulas sids) x)))).lookup c = _
    rw [lookup_map_self (fun x =>
        streakLoop sids (attendedSet (fetchPairs ap cedulas sids) x)) cedulas c hc]
    rw [streakLoop_eq_takeWhile,
      takeWhile_congr_on _ _ sids
        (fun sid hsid => attendedSet_contains ap cedulas sids c sid hc hsid)]

/-! ## Claim theorems -/

/-- C1: for every youth in the youth-id set, `computeStreaks` returns the
number of leading elements of the recent-service list (newest to oldest) for
which that youth has a matching attendance pair, stopping at the first
service with no match; for `[S5,S4,S3,S2,S1]` and a youth attending exactly
`{S5,S4,S2}` the streak is 2; a youth attending every recent service has
streak equal to the length of the list. -/
theorem C1_streak_semantics :
    (∀ (sids : List Nat) (ap : List (String × Nat)) (cedulas : List String)
        (c : String), c ∈ cedulas →
        (computeStreaks sids ap cedulas).lookup c =
          some (sids.takeWhile (fun sid => ap.contains (c, sid))).length)
    ∧ (computeStreaks [5, 4, 3, 2, 1] [("y", 5), ("y", 4), ("y", 2)]
        ["y"]).lookup "y" = some 2
    ∧ (∀ (sids : List Nat) (ap : List (String × Nat)) (cedulas : List String)
        (c : String), c ∈ cedulas → (∀ sid ∈ sids, (c, sid) ∈ ap) →
        (computeStreaks sids ap cedulas).lookup c = some sids.length) := by
  refine ⟨computeStreaks_lookup, by decide, ?_⟩
  intro sids ap cedulas c hc hall
  rw [computeStreaks_lookup sids ap cedulas c hc]
  have htrue : ∀ (l : List Nat), l.takeWhile (fun _ => true) = l := by
    intro l
    induction l with
    | nil => rfl
    | cons a l ih => rw [List.takeWhile_cons]; simp [ih]
  have : sids.takeWhile (fun sid => ap.contains (c, sid)) = sids := by
    rw [takeWhile_congr_on _ (fun _ => true) sids
      (fun sid hsid => by
        rw [contains_eq_true_iff]
        exact hall sid hsid),
      htrue]
  rw [this]

/-- Witness for C1, applied at the spec's own example. -/
theorem C1_streak_semantics_witness :
    ("y" ∈ ["y"]) ∧
    (computeStreaks [5, 4, 3, 2, 1] [("y", 5), ("y", 4), ("y", 2)] ["y"]).lookup "y" =
      some (([5, 4, 3, 2, 1].takeWhile
        (fun sid => [("y", 5), ("y", 4), ("y", 2)].contains ("y", sid))).length) :=
  ⟨by decide,
   C1_streak_semantics.1 [5, 4, 3, 2, 1] [("y", 5), ("y", 4), ("y", 2)] ["y"] "y"
     (by decide)⟩

/-- C7: when the recent-service list is empty, every listed youth gets
streak 0 (the computation is total, so nothing is raised), and in general the
result mapping is defined for exactly the listed youths. -/
theorem C7_empty_services :
    (∀ (ap : List (String × Nat)) (cedulas : List String) (c : String),
        c ∈ cedulas → (computeStreaks [] ap cedulas).lookup c = some 0)
    ∧ (∀ (sids : List Nat) (ap : List (String × Nat)) (cedulas : List String),
        (computeStreaks sids ap cedulas).map Prod.fst = cedulas) := by
  constructor
  · intro ap cedulas c hc
    exact computeStreaks_lookup [] ap cedulas c hc
  · intro sids ap cedulas
    have map_pair_fst : ∀ (f : String → Nat) (l : List String),
        List.map (Prod.fst ∘ fun c => (c, f c)) l = l := by
      intro f l
      induction l with
      | nil => rfl
      | cons a l ih => simp only [List.map_cons, Function.comp_apply]; rw [ih]
    unfold computeStreaks
    split
    · rw [List.map_map]; exact map_pair_fst _ cedulas
    · rw [List.map_map]; exact map_pair_fst _ cedulas

/-- Witness for C7 at a concrete youth and attendance set. -/
theorem C7_empty_services_witness :
    ("y" ∈ ["y"]) ∧ (computeStreaks [] [("y", 3)] ["y"]).lookup "y" = some 0 :=
  ⟨by decide, C7_empty_services.1 [("y", 3)] ["y"] "y" (by decide)⟩

theorem idleCheck_valid_ts (parseIso : String → Option Int) (idleMinutes now : Int)
    (s : String) (t : Int) (hs : s ≠ "") (hp : parseIso s = some t) :
    idleCheck parseIso idleMinutes now (some s) =
      if now - t > idleMinutes * 60 then some GuardOutcome.idleLogout else none := by
  simp only [idleCheck]
  rw [if_neg hs, hp]

theorem idleCheck_malformed_ts (parseIso : String → Option Int) (idleMinutes now : Int)
    (s : String) (hs : s ≠ "") (hp : parseIso s = none) :
    idleCheck parseIso idleMinutes now (some s) = some GuardOutcome.malformedLogout := by
  simp only [idleCheck]
  rw [if_neg hs, hp]

theorem enforce_of_idle_none (parseIso : String → Option Int) (isoFmt : Int → String)
    (idleMinutes now : Int) (last ct ut : Option String)
    (hIdle : idleCheck parseIso idleMinutes now last = none) :
    enforce_session_policies parseIso isoFmt idleMinutes now last ct ut =
      tokenCheck isoFmt now ct ut := by
  unfold enforce_session_policies
  rw [hIdle]

theorem enforce_of_idle_some (parseIso : String → Option Int) (isoFmt : Int → String)
    (idleMinutes now : Int) (last ct ut : Option String) (out : GuardOutcome)
    (hIdle : idleCheck parseIso idleMinutes now last = some out) :
    enforce_session_policies parseIso isoFmt idleMinutes now last ct ut = out := by
  unfold enforce_session_policies
  rw [hIdle]

theorem tokenCheck_superseded (isoFmt : Int → String) (now : Int)
    (ct ut : Option String)
    (h : pyTruthy ct = false ∨ pyTruthy ut = false ∨ ut ≠ ct) :
    tokenCheck isoFmt now ct ut = GuardOutcome.supersededLogout := by
  have hc : (!pyTruthy ct || !pyTruthy ut || (ut != ct)) = true := by
    rcases h with h | h | h
    · simp [h]
    · simp [h]
    · simp [bne_iff_ne, h]
  unfold tokenCheck
  rw [hc]
  rfl

theorem tokenCheck_allowed (isoFmt : Int → String) (now : Int) (t : String)
    (ht : t ≠ "") :
    tokenCheck isoFmt now (some t) (some t) = GuardOutcome.allowed (isoFmt now) := by
  have hc : (!pyTruthy (some t) || !pyTruthy (some t) ||
      ((some t : Option String) != some t)) = false := by
    simp [pyTruthy, ht]
  unfold tokenCheck
  rw [hc]
  rfl

theorem tokenCheck_ne_idle (isoFmt : Int → String) (now : Int)
    (ct ut : Option String) :
    tokenCheck isoFmt now ct ut ≠ GuardOutcome.idleLogout := by
  unfold tokenCheck
  split <;> simp

/-- C2 (amended): for every request by an authenticated principal that is not
idle-expired (the inactivity block falls through), if the request token is
absent or empty, or the stored token is absent or empty, or the two differ as
strings, the guard forces the superseded logout; if both tokens are present,
nonempty, and exactly equal, the request is allowed and the stored
last-activity timestamp is rewritten to now.  The amendment relative to the
claim: the code's truthiness test treats a present empty-string token as
absent, so presence alone does not suffice. -/
theorem C2_token_policy (parseIso : String → Option Int) (isoFmt : Int → String)
    (idleMinutes now : Int) (lastActivity currentToken userToken : Option String)
    (hIdle : idleCheck parseIso idleMinutes now lastActivity = none) :
    ((pyTruthy currentToken = false ∨ pyTruthy userToken = false ∨
        userToken ≠ currentToken) →
      enforce_session_policies parseIso isoFmt idleMinutes now lastActivity
        currentToken userToken = GuardOutcome.supersededLogout)
    ∧ (∀ t : String, t ≠ "" → currentToken = some t → userToken = some t →
      enforce_session_policies parseIso isoFmt idleMinutes now lastActivity
        currentToken userToken = GuardOutcome.allowed (isoFmt now)) := by
  rw [enforce_of_idle_none parseIso isoFmt idleMinutes now lastActivity
    currentToken userToken hIdle]
  constructor
  · exact tokenCheck_superseded isoFmt now currentToken userToken
  · intro t ht h1 h2
    rw [h1, h2]
    exact tokenCheck_allowed isoFmt now t ht

/-- C2 counterexample: both tokens are present (`some ""`) and equal, the
request is not idle-expired, yet the guard forces the superseded logout
instead of the Authenticated outcome the claim requires. -/
theorem C2_counterexample :
    enforce_session_policies (fun _ => none) (fun _ => "T") 15 0 none
      (some "") (some "") = GuardOutcome.supersededLogout
    ∧ GuardOutcome.supersededLogout ≠ GuardOutcome.allowed "T" := by decide

theorem C2_witness :
    (idleCheck (fun _ => none) 15 0 none = none)
    ∧ enforce_session_policies (fun _ => none) (fun _ => "T") 15 0 none
        (some "xyz") (some "abc") = GuardOutcome.supersededLogout
    ∧ enforce_session_policies (fun _ => none) (fun _ => "T") 15 0 none
        (some "abc") (some "abc") = GuardOutcome.allowed "T" :=
  ⟨rfl,
   (C2_token_policy (fun _ => none) (fun _ => "T") 15 0 none (some "xyz")
      (some "abc") rfl).1 (Or.inr (Or.inr (by decide))),
   (C2_token_policy (fun _ => none) (fun _ => "T") 15 0 none (some "abc")
      (some "abc") rfl).2 "abc" (by decide) rfl rfl⟩

/-- C3: for every authenticated request with a present, well-formed stored
last-activity timestamp, the idle forced-logout fires if and only if the
elapsed time strictly exceeds the idle threshold; exactly at the boundary the
idle logout does not fire and (with a matching nonempty token) the request is
still allowed. -/
theorem C3_idle_strict (parseIso : String → Option Int) (isoFmt : Int → String)
    (idleMinutes now : Int) (s : String) (t : Int) (ct ut : Option String)
    (hs : s ≠ "") (hp : parseIso s = some t) :
    (enforce_session_policies parseIso isoFmt idleMinutes now (some s) ct ut =
        GuardOutcome.idleLogout ↔ now - t > idleMinutes * 60)
    ∧ (now - t = idleMinutes * 60 → ∀ tok : String, tok ≠ "" →
        enforce_session_policies parseIso isoFmt idleMinutes now (some s)
          (some tok) (some tok) = GuardOutcome.allowed (isoFmt now)) := by
  have hidle := idleCheck_valid_ts parseIso idleMinutes now s t hs hp
  constructor
  · by_cases hgt : now - t > idleMinutes * 60
    · have h1 : idleCheck parseIso idleMinutes now (some s) =
          some GuardOutcome.idleLogout := by rw [hidle, if_pos hgt]
      rw [enforce_of_idle_some parseIso isoFmt idleMinutes now (some s) ct ut
        GuardOutcome.idleLogout h1]
      exact ⟨fun _ => hgt, fun _ => rfl⟩
    · have h1 : idleCheck parseIso idleMinutes now (some s) = none := by
        rw [hidle, if_neg hgt]
      rw [enforce_of_idle_none parseIso isoFmt idleMinutes now (some s) ct ut h1]
      exact ⟨fun h => absurd h (tokenCheck_ne_idle isoFmt now ct ut),
        fun h => absurd h hgt⟩
  · intro heq tok htok
    have hgt : ¬ now - t > idleMinutes * 60 := by omega
    rw [enforce_of_idle_none parseIso isoFmt idleMinutes now (some s)
      (some tok) (some tok) (by rw [hidle, if_neg hgt])]
    exact tokenCheck_allowed isoFmt now tok htok

theorem C3_witness :
    ("TS" ≠ "")
    ∧ enforce_session_policies parseIsoStub isoFmtStub 15 901 (some "TS")
        (some "a") (some "a") = GuardOutcome.idleLogout
    ∧ enforce_session_policies parseIsoStub isoFmtStub 15 900 (some "TS")
        (some "a") (some "a") = GuardOutcome.allowed (isoFmtStub 900) :=
  ⟨by decide,
   (C3_idle_strict parseIsoStub isoFmtStub 15 901 "TS" 0 (some "a") (some "a")
      (by decide) (by decide)).1.mpr (by decide),
   (C3_idle_strict parseIsoStub isoFmtStub 15 900 "TS" 0 (some "a") (some "a")
      (by decide) (by decide)).2 (by decide) "a" (by decide)⟩

/-- C4 (amended): for every authenticated request whose stored last-activity
timestamp is present, nonempty, and unparseable, the guard invalidates the
local session and redirects to login (fail closed), but emits no user-facing
notice — unlike the genuine idle outcome, which flashes the inactivity
message.  The amendment relative to the claim: no notice is emitted, and a
present-but-empty timestamp string is skipped by the truthiness test rather
than treated as malformed. -/
theorem C4_malformed_ts (parseIso : String → Option Int) (isoFmt : Int → String)
    (idleMinutes now : Int) (s : String) (ct ut : Option String)
    (hs : s ≠ "") (hp : parseIso s = none) :
    enforce_session_policies parseIso isoFmt idleMinutes now (some s) ct ut =
      GuardOutcome.malformedLogout
    ∧ sessionInvalidated GuardOutcome.malformedLogout = true
    ∧ redirectsToLogin GuardOutcome.malformedLogout = true
    ∧ guardNotice GuardOutcome.malformedLogout = none :=
  ⟨enforce_of_idle_some parseIso isoFmt idleMinutes now (some s) ct ut
      GuardOutcome.malformedLogout
      (idleCheck_malformed_ts parseIso idleMinutes now s hs hp),
   rfl, rfl, rfl⟩

/-- C4 counterexample: with a present nonempty unparseable timestamp the
guard emits no notice at all (the claim requires the inactivity notice), and
with a present empty-string timestamp — also unparseable — the idle block is
skipped entirely and access is silently allowed, violating fail-closed. -/
theorem C4_counterexample :
    guardNotice (enforce_session_policies (fun _ => none) (fun _ => "") 15 0
      (some "garbage") (some "tok") (some "tok")) = none
    ∧ enforce_session_policies (fun _ => none) (fun _ => "") 15 999999
        (some "") (some "tok") (some "tok") = GuardOutcome.allowed ""
    ∧ guardNotice (GuardOutcome.allowed "") = none := by decide

theorem C4_witness :
    ("garbage" ≠ "")
    ∧ enforce_session_policies (fun _ => none) (fun _ => "X") 15 0 (some "garbage")
        (some "tok") (some "tok") = GuardOutcome.malformedLogout
    ∧ guardNotice GuardOutcome.malformedLogout = none :=
  ⟨by decide,
   (C4_malformed_ts (fun _ => none) (fun _ => "X") 15 0 "garbage" (some "tok")
      (some "tok") (by decide) rfl).1,
   (C4_malformed_ts (fun _ => none) (fun _ => "X") 15 0 "garbage" (some "tok")
      (some "tok") (by decide) rfl).2.2.2⟩

/-- C5: the attendance store keeps at most one mark per
`(youth identifier, service identifier)` pair — registration preserves the
per-pair uniqueness invariant — and every attempt to register a pair that is
already present fails with the already-registered notice and leaves the
store unchanged. -/
theorem C5_unique_attendance :
    (∀ (marks : List AttendanceMark) (sid : Nat) (ced : String) (uid : Nat),
        PairUnique marks → PairUnique (attendance_register_active marks sid ced uid).1)
    ∧ (∀ (marks : List AttendanceMark) (sid : Nat) (ced : String) (uid : Nat)
        (a : AttendanceMark), a ∈ marks → a.service_id = sid → a.youth_cedula = ced →
        attendance_register_active marks sid ced uid =
          (marks, RegisterOutcome.alreadyRegistered)) := by
  constructor
  · intro marks sid ced uid hpu
    unfold attendance_register_active
    by_cases hany : marks.any (fun a => samePair a sid ced) = true
    · rw [if_pos hany]
      exact hpu
    · rw [if_neg hany]
      show PairUnique (marks ++ [⟨sid, ced, uid⟩])
      rw [PairUnique, List.pairwise_append]
      refine ⟨hpu, List.pairwise_singleton _ _, ?_⟩
      intro a ha b hb
      rw [List.mem_singleton] at hb
      subst hb
      have hfalse : samePair a sid ced = false := by
        have := (Bool.eq_false_iff.mpr
          (fun hc => hany (List.any_eq_true.mpr ⟨a, ha, hc⟩)))
        exact this
      unfold samePair at hfalse
      rcases Bool.and_eq_false_iff.mp hfalse with h | h
      · exact Or.inl (by simpa using h)
      · exact Or.inr (by simpa using h)
  · intro marks sid ced uid a ha hsid hced
    unfold attendance_register_active
    rw [if_pos (List.any_eq_true.mpr ⟨a, ha, by simp [samePair, hsid, hced]⟩)]

theorem C5_witness :
    PairUnique [(⟨1, "c", 7⟩ : AttendanceMark)]
    ∧ PairUnique (attendance_register_active [⟨1, "c", 7⟩] 2 "c" 9).1
    ∧ attendance_register_active [⟨1, "c", 7⟩] 1 "c" 9 =
        ([⟨1, "c", 7⟩], RegisterOutcome.alreadyRegistered) :=
  ⟨List.pairwise_singleton _ _,
   C5_unique_attendance.1 [⟨1, "c", 7⟩] 2 "c" 9 (List.pairwise_singleton _ _),
   C5_unique_attendance.2 [⟨1, "c", 7⟩] 1 "c" 9 ⟨1, "c", 7⟩
     (List.mem_singleton_self _) rfl rfl⟩

/-- C9: for every request to a role-gated route by an authenticated user
whose role is not in the route's allow-list, the wrapped handler never runs:
the state is unchanged and the user is redirected to the dashboard with the
permissions notice; in particular a user whose role is not ROOT can never
delete a youth record or its attendance marks through the delete route. -/
theorem C9_role_gate :
    (∀ (σ ρ : Type) (roles : List String) (fn : σ → σ × ρ) (role : String) (st : σ),
        role ∉ roles →
        role_required roles fn role st = (st, RouteResult.permissionRedirect))
    ∧ (∀ (role ced : String) (st : Store), role ≠ "ROOT" →
        youth_delete role ced st = (st, RouteResult.permissionRedirect)) := by
  have main : ∀ (σ ρ : Type) (roles : List String) (fn : σ → σ × ρ) (role : String)
      (st : σ), role ∉ roles →
      role_required roles fn role st = (st, RouteResult.permissionRedirect) := by
    intro σ ρ roles fn role st hrole
    unfold role_required
    rw [if_neg (fun hc => hrole ((contains_eq_true_iff roles role).mp hc))]
  refine ⟨main, ?_⟩
  intro role ced st hrole
  exact main Store DeleteResult ["ROOT"] (youth_delete_handler ced) role st
    (fun hm => hrole (List.mem_singleton.mp hm))

theorem C9_witness :
    ("ADMIN" ∉ ["ROOT"])
    ∧ youth_delete "ADMIN" "123" ⟨[⟨"123", "n"⟩], [⟨1, "123", 7⟩]⟩ =
        (⟨[⟨"123", "n"⟩], [⟨1, "123", 7⟩]⟩, RouteResult.permissionRedirect) :=
  ⟨by decide, C9_role_gate.2 "ADMIN" "123" ⟨[⟨"123", "n"⟩], [⟨1, "123", 7⟩]⟩
    (by decide)⟩


theorem filter_head_unique (uname : String) :
    ∀ (users : List UserRec) (u : UserRec),
      (users.map (fun w => w.username)).Nodup → u ∈ users → u.username = uname →
      u.is_active = true →
      (users.filter (fun w => w.username == uname && w.is_active)).head? = some u := by
  intro users
  induction users with
  | nil => intro u _ hu; cases hu
  | cons v rest ih =>
    intro u huniq hu hname hact
    rw [List.map_cons, List.nodup_cons] at huniq
    rcases huniq with ⟨hnotin, hnod⟩
    rcases List.mem_cons.mp hu with rfl | hmem
    · have hpred : (u.username == uname && u.is_active) = true := by
        simp [hname, hact]
      rw [List.filter_cons, if_pos hpred]
      rfl
    · have hne : v.username ≠ uname := by
        intro he
        exact hnotin (List.mem_map.mpr ⟨u, hmem, hname.trans he.symm⟩)
      have hpred : (v.username == uname && v.is_active) = false := by
        simp [hne]
      rw [List.filter_cons, if_neg (ne_true_of_eq_false hpred)]
      exact ih u hnod hmem hname hact

theorem login_success_spec (checkPw : String → String → Bool) (users : List UserRec)
    (uname pw tok : String) (u : UserRec)
    (huniq : (users.map (fun w => w.username)).Nodup)
    (hu : u ∈ users) (hname : u.username = uname) (hact : u.is_active = true)
    (hpw : checkPw u.password_hash pw = true) :
    (login checkPw users uname pw tok).2 = LoginOutcome.success tok
    ∧ ∀ v ∈ (login checkPw users uname pw tok).1, v.id = u.id →
        v.session_token = some tok := by
  have hhead := filter_head_unique uname users u huniq hu hname hact
  have hlogin : login checkPw users uname pw tok =
      (users.map (fun v =>
        if v.id == u.id then { v with session_token := some tok } else v),
       LoginOutcome.success tok) := by
    unfold login
    rw [hhead]
    simp [hpw]
  rw [hlogin]
  refine ⟨rfl, ?_⟩
  intro v hv hid
  rcases List.mem_map.mp hv with ⟨w, hw, hveq⟩
  by_cases h : w.id = u.id
  · rw [← hveq]
    simp [h]
  · exfalso
    apply h
    rw [← hveq] at hid
    simpa [beq_eq_false_iff_ne.mpr h] using hid

theorem login_invalid_spec (checkPw : String → String → Bool) (users : List UserRec)
    (uname pw tok : String)
    (h : ∀ v ∈ users, ¬(v.username = uname ∧ v.is_active = true ∧
        checkPw v.password_hash pw = true)) :
    login checkPw users uname pw tok = (users, LoginOutcome.invalidCredentials) := by
  unfold login
  cases hh : (users.filter (fun w => w.username == uname && w.is_active)).head? with
  | none => rfl
  | some m =>
    have hm : m ∈ users.filter (fun w => w.username == uname && w.is_active) := by
      cases hf : users.filter (fun w => w.username == uname && w.is_active) with
      | nil => rw [hf] at hh; cases hh
      | cons x xs =>
        rw [hf] at hh
        cases hh
        exact List.mem_cons_self m xs
    rcases List.mem_filter.mp hm with ⟨hmu, hpred⟩
    rcases Bool.and_eq_true_iff.mp hpred with ⟨h1, h2⟩
    have hcpw : checkPw m.password_hash pw = false := by
      rcases Bool.eq_false_or_eq_true (checkPw m.password_hash pw) with hc | hc
      · exact absurd ⟨beq_iff_eq.mp h1, h2, hc⟩ (h m hmu)
      · exact hc
    simp [hcpw]

/-- C6: every successful login rotates the principal's stored session token
to the freshly issued value, and any subsequent non-idle-expired request
presenting a stale token (any token different from the currently stored one)
is rejected with the superseded forced logout, so at most one token is valid
at a time per principal. -/
theorem C6_token_rotation :
    (∀ (checkPw : String → String → Bool) (users : List UserRec)
        (uname pw tok : String) (u : UserRec),
        (users.map (fun w => w.username)).Nodup → u ∈ users → u.username = uname →
        u.is_active = true → checkPw u.password_hash pw = true →
        (login checkPw users uname pw tok).2 = LoginOutcome.success tok ∧
        ∀ v ∈ (login checkPw users uname pw tok).1, v.id = u.id →
          v.session_token = some tok)
    ∧ (∀ (parseIso : String → Option Int) (isoFmt : Int → String)
        (idleMinutes now : Int) (lastActivity : Option String)
        (staleTok freshTok : String),
        idleCheck parseIso idleMinutes now lastActivity = none →
        staleTok ≠ freshTok →
        enforce_session_policies parseIso isoFmt idleMinutes now lastActivity
          (some staleTok) (some freshTok) = GuardOutcome.supersededLogout) := by
  constructor
  · exact login_success_spec
  · intro parseIso isoFmt idleMinutes now last staleTok freshTok hIdle hne
    rw [enforce_of_idle_none parseIso isoFmt idleMinutes now last
      (some staleTok) (some freshTok) hIdle]
    exact tokenCheck_superseded isoFmt now (some staleTok) (some freshTok)
      (Or.inr (Or.inr (fun he => hne (Option.some.inj he).symm)))

theorem C6_witness :
    (login checkPwStub [⟨1, "u", "pw", "ADMIN", true, some "old"⟩]
        "u" "pw" "new").2 = LoginOutcome.success "new"
    ∧ enforce_session_policies (fun _ => none) (fun _ => "T") 15 0 none
        (some "old") (some "new") = GuardOutcome.supersededLogout :=
  ⟨(C6_token_rotation.1 checkPwStub [⟨1, "u", "pw", "ADMIN", true, some "old"⟩]
      "u" "pw" "new" ⟨1, "u", "pw", "ADMIN", true, some "old"⟩
      (by decide) (List.mem_singleton_self _) rfl rfl (by decide)).1,
   C6_token_rotation.2 (fun _ => none) (fun _ => "T") 15 0 none "old" "new" rfl
     (by decide)⟩

/-- C10: login establishes a session and rotates the stored session token
exactly when some user with the submitted username exists, is active, and the
submitted password matches that user's stored hash; for every other
submission — including a deactivated account presenting its correct
password — the user table is unchanged and the invalid-credentials notice is
shown. -/
theorem C10_login_gate :
    (∀ (checkPw : String → String → Bool) (users : List UserRec)
        (uname pw tok : String),
        (∀ v ∈ users, ¬(v.username = uname ∧ v.is_active = true ∧
            checkPw v.password_hash pw = true)) →
        login checkPw users uname pw tok = (users, LoginOutcome.invalidCredentials))
    ∧ (∀ (checkPw : String → String → Bool) (users : List UserRec)
        (uname pw tok : String) (u : UserRec),
        (users.map (fun w => w.username)).Nodup → u ∈ users → u.username = uname →
        u.is_active = true → checkPw u.password_hash pw = true →
        (login checkPw users uname pw tok).2 = LoginOutcome.success tok ∧
        ∀ v ∈ (login checkPw users uname pw tok).1, v.id = u.id →
          v.session_token = some tok) :=
  ⟨login_invalid_spec, login_success_spec⟩

theorem C10_witness :
    login checkPwStub [⟨1, "u", "pw", "ADMIN", false, some "old"⟩] "u" "pw" "tok" =
      ([⟨1, "u", "pw", "ADMIN", false, some "old"⟩],
       LoginOutcome.invalidCredentials) :=
  C10_login_gate.1 checkPwStub [⟨1, "u", "pw", "ADMIN", false, some "old"⟩]
    "u" "pw" "tok" (by decide)

/-- Stripping non-digits is idempotent. -/
theorem digits_only_idem (raw : String) :
    digits_only (digits_only raw) = digits_only raw := by
  unfold digits_only
  congr 1
  exact List.filter_eq_self.mpr (fun a ha => (List.mem_filter.mp ha).2)

/-- C8 (amended): the two duplicated route definitions that validate the
submitted cedula field — youth creation and attendance registration — apply
one identical rule: a value is accepted exactly when the digits left after
stripping non-digit characters number 8 or 9.  No route accepts identifiers
of arbitrary length, contrary to the claim of two differing rules. -/
theorem C8_single_rule :
    (∀ raw : String, youth_new_cedula_check raw = attendance_register_cedula_check raw)
    ∧ (∀ raw : String, youth_new_cedula_check raw = true ↔
        ((digits_only raw).length = 8 ∨ (digits_only raw).length = 9)) := by
  refine ⟨fun _ => rfl, ?_⟩
  intro raw
  unfold youth_new_cedula_check validate_cedula str_isdigit
  rw [digits_only_idem]
  have hall : (digits_only raw).data.all Char.isDigit = true :=
    List.all_eq_true.mpr (fun a ha => (List.mem_filter.mp ha).2)
  constructor
  · intro h
    rcases Bool.and_eq_true_iff.mp h with ⟨_, h2⟩
    rcases Bool.or_eq_true_iff.mp h2 with h3 | h3
    · exact Or.inl (beq_iff_eq.mp h3)
    · exact Or.inr (beq_iff_eq.mp h3)
  · intro h
    have hpos : 0 < (digits_only raw).data.length := by
      have : (digits_only raw).length = (digits_only raw).data.length := rfl
      omega
    have hne : (digits_only raw).data.isEmpty = false := by
      cases hd : (digits_only raw).data with
      | nil => rw [hd] at hpos; cases hpos
      | cons a l => rfl
    rw [Bool.and_eq_true_iff, Bool.and_eq_true_iff, Bool.or_eq_true_iff]
    refine ⟨⟨by rw [hne]; rfl, hall⟩, ?_⟩
    rcases h with h | h
    · exact Or.inl (beq_iff_eq.mpr h)
    · exact Or.inr (beq_iff_eq.mpr h)

/-- C8 counterexample: both cedula-validating routes — the only two in the
application — reject a 7-digit and a 10-digit identifier, so no route accepts
identifiers of any length as the claim asserts. -/
theorem C8_counterexample :
    youth_new_cedula_check "1234567" = false
    ∧ attendance_register_cedula_check "1234567" = false
    ∧ youth_new_cedula_check "1234567890" = false
    ∧ attendance_register_cedula_check "1234567890" = false := by decide

end JHAttendance
